import Mathlib

/-!
Verification development for the chatbot-agent page
(src/pages/2_Chatbot_Agent.py).

The page keeps four pieces of per-session state: two credential strings
(openai_key, tavily_key), an optional agent handle, and an ordered chat
history (agent_messages).  The operations embedded below are the
"Change API Keys" reset handler (lines 94-99), the "Connect" button
handler with its per-provider format validation (lines 131-151), the
agent-creation guard (lines 160-200), the fixed tool list with its
result caps (lines 172-199), and the chat-turn handler (lines 218-245).

Credential strings are modelled as lists of characters so that the
python str.startswith check becomes a structurally recursive prefix
test the kernel can evaluate; message contents, which are only ever
compared for equality, stay as Lean strings.  The agent handle is
opaque to the page, so it is modelled as an optional natural-number
identity; the external agent boundary is a function from a full
history to either a failure or a returned message list.
-/

namespace ChatbotAgent

/-- One chat message, mirroring the dicts with keys "role" and
"content" appended to st.session_state.agent_messages. -/
structure Message where
  role : String
  content : String
deriving DecidableEq, Repr

/-- The per-session state: the four st.session_state fields
initialised at lines 57-67 of the page. -/
structure SessionState where
  openai_key : List Char
  tavily_key : List Char
  agent : Option Nat
  agent_messages : List Message
deriving DecidableEq, Repr

/-- The initial session state (lines 57-67): both keys empty, no
agent, empty history. -/
def initialState : SessionState :=
  { openai_key := [], tavily_key := [], agent := none, agent_messages := [] }

/-- The "Change API Keys" button handler (lines 94-99): it sets the
two key fields to the empty string and reruns.  It touches nothing
else: in particular it does not clear the agent field or the chat
history. -/
def changeApiKeys (s : SessionState) : SessionState :=
  { s with openai_key := [], tavily_key := [] }

/-- The sidebar connectivity indicator for the model provider
(line 77): truthiness of the stored key string, i.e. non-emptiness. -/
def isConnectedOpenai (s : SessionState) : Bool :=
  !s.openai_key.isEmpty

/-- The sidebar connectivity indicator for the search provider
(line 82): truthiness of the stored key string, i.e. non-emptiness. -/
def isConnectedTavily (s : SessionState) : Bool :=
  !s.tavily_key.isEmpty

/-- The per-provider format check inside the Connect handler
(lines 136 and 141): python `not k or not k.startswith(p)` is the
rejection condition, so the value passes exactly when it is non-empty
and carries the required provider prefix. -/
def keyFormatOk (p : List Char) (v : List Char) : Bool :=
  !(v.isEmpty || !(p.isPrefixOf v))

/-- The "Connect" button handler (lines 131-151).  A key is "needed"
when its stored value is empty (lines 107-111); for a needed key the
effective value is the text-input value, otherwise the stored value
(lines 114-129).  Each needed key is format-checked; if every check
passes, the needed keys are stored and the handler succeeds, otherwise
an error is shown and the session state is left untouched. -/
def connectClick (s : SessionState) (openai_input tavily_input : List Char) :
    SessionState × Bool :=
  let openai_key := if s.openai_key.isEmpty then openai_input else s.openai_key
  let tavily_key := if s.tavily_key.isEmpty then tavily_input else s.tavily_key
  let valid := !(s.openai_key.isEmpty && !keyFormatOk "sk-".toList openai_key)
            && !(s.tavily_key.isEmpty && !keyFormatOk "tvly-".toList tavily_key)
  if valid then
    ({ s with openai_key := openai_key, tavily_key := tavily_key }, true)
  else
    (s, false)

/-- The agent-creation guard (lines 160-200): python
`if not st.session_state.agent:` builds and stores a fresh agent only
when the field is falsy (None); otherwise the block is skipped and the
stored handle is untouched.  The fresh handle built by
create_react_agent is opaque, so it enters as a parameter. -/
def createAgentStep (s : SessionState) (freshHandle : Nat) : SessionState :=
  if s.agent.isNone then { s with agent := some freshHandle } else s

/-- One tool descriptor: the constructor arguments the page fixes for
each of the three tools (lines 172-199).  The web-search tool sets
only max_results; the two wrapper-based tools set a name,
top_k_results and doc_content_chars_max. -/
structure Tool where
  toolName : Option String
  maxResults : Nat
  docContentCharsMax : Option Nat
deriving DecidableEq, Repr

/-- TavilySearchResults(max_results=3) at line 172. -/
def search_tool : Tool :=
  { toolName := none, maxResults := 3, docContentCharsMax := none }

/-- WikipediaQueryRun with top_k_results=2 and
doc_content_chars_max=500 (lines 175-184). -/
def wikipedia : Tool :=
  { toolName := some "wikipedia", maxResults := 2, docContentCharsMax := some 500 }

/-- ArxivQueryRun with top_k_results=2 and doc_content_chars_max=500
(lines 187-196). -/
def arxiv : Tool :=
  { toolName := some "arxiv", maxResults := 2, docContentCharsMax := some 500 }

/-- The tool list handed to create_react_agent (line 199). -/
def tools : List Tool := [search_tool, wikipedia, arxiv]

/-- The chat-turn handler (lines 218-245).  It appends the user
message to the history, invokes the agent on the whole updated
history, and on success reads the content of the last returned
message, displays it, and appends it as the assistant message.  The
agent boundary may fail (network, quota, tool errors); a python
exception raised by invoke propagates before the assistant append
runs, so the result pairs the history as it stands after the turn with
either the reply text or the surfaced error.  An empty returned
message list would make the python index [-1] raise, modelled as the
corresponding failure. -/
def submit (agentInvoke : List Message → Except String (List Message))
    (history : List Message) (user_input : String) :
    List Message × Except String String :=
  let history1 := history ++ [{ role := "user", content := user_input }]
  match agentInvoke history1 with
  | Except.error e => (history1, Except.error e)
  | Except.ok msgs =>
    match msgs.getLast? with
    | none => (history1, Except.error "IndexError")
    | some m =>
      (history1 ++ [{ role := "assistant", content := m.content }],
       Except.ok m.content)

/-- A fully connected demo session used to exercise the theorems on
concrete inputs. -/
def connectedState : SessionState :=
  { openai_key := "sk-demo".toList, tavily_key := "tvly-demo".toList,
    agent := some 7,
    agent_messages := [{ role := "user", content := "hi" }] }

/-- A mocked agent boundary that always answers with a single
assistant message "PONG". -/
def pongAgent : List Message → Except String (List Message) :=
  fun _ => Except.ok [{ role := "assistant", content := "PONG" }]

/-- A mocked agent boundary that always raises a downstream
failure. -/
def failingAgent : List Message → Except String (List Message) :=
  fun _ => Except.error "RateLimitError"

/-- C1: evaluating the reset handler on a connected session whose
agent handle is present shows that both credentials are cleared but
the agent field is NOT set to absent: the stored handle survives the
reset, so a subsequent valid-credential pass does not re-create the
agent, contrary to the claim. -/
theorem changeApiKeys_keeps_agent :
    (changeApiKeys connectedState).openai_key = [] ∧
    (changeApiKeys connectedState).tavily_key = [] ∧
    (changeApiKeys connectedState).agent = some 7 :=
  ⟨rfl, rfl, rfl⟩

/-- C2: on a successful agent call, the turn handler appends the user
message with the literal input, hands the whole updated history to the
agent, appends one assistant message whose content is the content of
the last returned message, and returns that content as the reply, so
the history grows by exactly two entries. -/
theorem submit_success_shape
    (agentInvoke : List Message → Except String (List Message))
    (history : List Message) (user_input : String)
    (msgs : List Message) (m : Message)
    (hok : agentInvoke (history ++ [{ role := "user", content := user_input }]) =
      Except.ok msgs)
    (hlast : msgs.getLast? = some m) :
    submit agentInvoke history user_input =
      (history ++ [{ role := "user", content := user_input },
                   { role := "assistant", content := m.content }],
       Except.ok m.content) ∧
    (submit agentInvoke history user_input).1.length = history.length + 2 := by
  have h1 : submit agentInvoke history user_input =
      ((history ++ [{ role := "user", content := user_input }]) ++
        [{ role := "assistant", content := m.content }], Except.ok m.content) := by
    simp [submit, hok, hlast]
  refine ⟨?_, ?_⟩
  · rw [h1]; simp
  · rw [h1]; simp

/-- Witness for C2: the mocked always-PONG agent on an empty history
and input PING yields the two-message history and the reply PONG. -/
theorem submit_success_shape_witness :
    submit pongAgent [] "PING" =
      ([{ role := "user", content := "PING" },
        { role := "assistant", content := "PONG" }], Except.ok "PONG") := by
  have h := submit_success_shape pongAgent [] "PING"
    [{ role := "assistant", content := "PONG" }]
    { role := "assistant", content := "PONG" } rfl rfl
  simpa using h.1

/-- C3: the Connect handler rejects exactly when some needed raw value
is empty or lacks the required provider prefix (sk- for the model
provider, tvly- for the search provider), and on rejection the session
state is left completely unchanged. -/
theorem connect_rejects_iff (s : SessionState) (o t : List Char) :
    ((connectClick s o t).2 = false ↔
      (s.openai_key = [] ∧ (o = [] ∨ ¬ ("sk-".toList <+: o))) ∨
      (s.tavily_key = [] ∧ (t = [] ∨ ¬ ("tvly-".toList <+: t)))) ∧
    ((connectClick s o t).2 = false → (connectClick s o t).1 = s) := by
  by_cases hso : s.openai_key = [] <;> by_cases hst : s.tavily_key = [] <;>
    by_cases hoe : o = [] <;> by_cases hte : t = [] <;>
    by_cases hop : ("sk-".toList <+: o) <;> by_cases htp : ("tvly-".toList <+: t) <;>
    simp_all [connectClick, keyFormatOk]

/-- Witness for C3: a valid model key with a bad search key on the
fresh session is rejected and leaves the state untouched. -/
theorem connect_rejects_iff_witness :
    (connectClick initialState "sk-good".toList "oops".toList).2 = false ∧
    (connectClick initialState "sk-good".toList "oops".toList).1 = initialState := by
  have h := connect_rejects_iff initialState "sk-good".toList "oops".toList
  have hrej : (connectClick initialState "sk-good".toList "oops".toList).2 = false :=
    h.1.mpr (Or.inr ⟨rfl, Or.inr (by decide)⟩)
  exact ⟨hrej, h.2 hrej⟩

/-- C4: once the agent field holds a handle, the creation guard is a
no-op: the whole session state, and in particular the stored handle,
is unchanged by any later pass through the creation block, so
consecutive turns use the identical handle. -/
theorem agent_not_recreated (s : SessionState) (f a : Nat)
    (h : s.agent = some a) :
    createAgentStep s f = s ∧ (createAgentStep s f).agent = some a := by
  have hstep : createAgentStep s f = s := by
    simp [createAgentStep, h]
  exact ⟨hstep, by rw [hstep, h]⟩

/-- Witness for C4: the connected demo session with handle 7 is left
unchanged by a creation pass offering a fresh handle 99. -/
theorem agent_not_recreated_witness :
    createAgentStep connectedState 99 = connectedState ∧
    (createAgentStep connectedState 99).agent = some 7 :=
  agent_not_recreated connectedState 99 7 rfl

/-- C5: when the agent invocation raises, the turn handler appends no
assistant entry at all — the history after the turn is exactly the
prior history plus the user message — and the failure is surfaced to
the caller unmodified. -/
theorem submit_failure_surfaced
    (agentInvoke : List Message → Except String (List Message))
    (history : List Message) (user_input : String) (e : String)
    (herr : agentInvoke (history ++ [{ role := "user", content := user_input }]) =
      Except.error e) :
    (submit agentInvoke history user_input).1 =
      history ++ [{ role := "user", content := user_input }] ∧
    (submit agentInvoke history user_input).2 = Except.error e := by
  simp [submit, herr]

/-- Witness for C5: the always-failing mocked agent on an empty
history leaves only the user message and surfaces the error. -/
theorem submit_failure_surfaced_witness :
    (submit failingAgent [] "hello").1 = [{ role := "user", content := "hello" }] ∧
    (submit failingAgent [] "hello").2 = Except.error "RateLimitError" := by
  have h := submit_failure_surfaced failingAgent [] "hello" "RateLimitError" rfl
  simpa using h

/-- C6: the tool list has exactly three descriptors whose result caps
are 3 results for web search, and 2 results with a 500 character
budget for each of the encyclopedia and paper tools. -/
theorem tools_caps :
    tools.length = 3 ∧
    tools.map (fun tl => (tl.maxResults, tl.docContentCharsMax)) =
      [(3, none), (2, some 500), (2, some 500)] :=
  ⟨rfl, rfl⟩

/-- C7: after the reset handler runs, both connectivity indicators are
false, whatever the prior state was. -/
theorem reset_disconnects (s : SessionState) :
    isConnectedOpenai (changeApiKeys s) = false ∧
    isConnectedTavily (changeApiKeys s) = false :=
  ⟨rfl, rfl⟩

/-- C8: the reset handler leaves the conversation history unchanged;
indeed it modifies only the two credential fields of the session. -/
theorem reset_preserves_history (s : SessionState) :
    (changeApiKeys s).agent_messages = s.agent_messages ∧
    changeApiKeys s = { s with openai_key := [], tavily_key := [] } :=
  ⟨rfl, rfl⟩

/-- Witness for C7: resetting the connected demo session disconnects
both providers. -/
theorem reset_disconnects_witness :
    isConnectedOpenai (changeApiKeys connectedState) = false ∧
    isConnectedTavily (changeApiKeys connectedState) = false :=
  reset_disconnects connectedState

/-- Witness for C8: resetting the connected demo session keeps its
one-message history and changes only the credential fields. -/
theorem reset_preserves_history_witness :
    (changeApiKeys connectedState).agent_messages =
      [{ role := "user", content := "hi" }] ∧
    changeApiKeys connectedState =
      { connectedState with openai_key := [], tavily_key := [] } := by
  have h := reset_preserves_history connectedState
  exact ⟨h.1, h.2⟩

/-- C9: credential submission is all-or-nothing: on a fresh session
needing both keys, a well-formed model key paired with an empty or
badly prefixed search key is wholly rejected — neither credential is
stored and the state is unchanged. -/
theorem connect_all_or_nothing (s : SessionState) (o t : List Char)
    (hso : s.openai_key = []) (hst : s.tavily_key = [])
    (ho : "sk-".toList <+: o)
    (ht : t = [] ∨ ¬ ("tvly-".toList <+: t)) :
    connectClick s o t = (s, false) := by
  rcases ht with ht | ht <;> simp_all [connectClick, keyFormatOk]

/-- Witness for C9: on the fresh session, a good model key together
with the bad search key value is discarded as a pair. -/
theorem connect_all_or_nothing_witness :
    connectClick initialState "sk-good".toList "bad".toList = (initialState, false) :=
  connect_all_or_nothing initialState "sk-good".toList "bad".toList rfl rfl
    (by decide) (Or.inr (by decide))

/-- C10: the user message is appended before the agent is invoked, so
when the invocation raises, the history after the failed turn is the
prior history with exactly the one new user entry — its length grew by
one and the user message dangles without an assistant reply. -/
theorem submit_failure_user_dangling
    (agentInvoke : List Message → Except String (List Message))
    (history : List Message) (user_input : String) (e : String)
    (herr : agentInvoke (history ++ [{ role := "user", content := user_input }]) =
      Except.error e) :
    (submit agentInvoke history user_input).1 =
      history ++ [{ role := "user", content := user_input }] ∧
    (submit agentInvoke history user_input).1.length = history.length + 1 := by
  simp [submit, herr]

/-- Witness for C10: the always-failing mocked agent on a one-message
history leaves a two-message history ending in the dangling user
entry. -/
theorem submit_failure_user_dangling_witness :
    (submit failingAgent [{ role := "user", content := "a" }] "Q").1 =
      [{ role := "user", content := "a" }, { role := "user", content := "Q" }] ∧
    (submit failingAgent [{ role := "user", content := "a" }] "Q").1.length = 2 := by
  have h := submit_failure_user_dangling failingAgent
    [{ role := "user", content := "a" }] "Q" "RateLimitError" rfl
  simpa using h

end ChatbotAgent
